import Mathlib

/-!
Verification of the camoufox profile subsystem.

Shallow embedding of the profile sanitizer and storage guard
(src/ui/tailwind.config.ts, src/ui/src/lib/profile-types.ts) and of the
client-side consistency checker (src/profiles/README.md,
`validateConsistency`).  JavaScript strings are Lean `String`s, JavaScript
numbers are `ℚ`, absent (`undefined`) draft fields are `Option.none`, and
the JavaScript truthiness conventions (`""` and `0` are falsy) are made
explicit in the `jsOr` / `numOr` / `jsOpt` helpers.
-/

/-- JS `a || b` for an optional string: absent and `""` are falsy. -/
def jsOr (o : Option String) (d : String) : String :=
  match o with
  | none => d
  | some s => if s = "" then d else s

/-- JS `a || b` for an optional number: absent and `0` are falsy. -/
def numOr (o : Option ℚ) (d : ℚ) : ℚ :=
  match o with
  | none => d
  | some x => if x = 0 then d else x

/-- JS `x ? f(x) : null` for an optional string field. -/
def jsOpt (o : Option String) (f : String → String) : Option String :=
  match o with
  | none => none
  | some s => if s = "" then none else some (f s)

/-- Does the second list start with the first one? -/
def charsStartWith : List Char → List Char → Bool
  | [], _ => true
  | _ :: _, [] => false
  | a :: as, b :: bs => a = b && charsStartWith as bs

/-- Does the second list contain the first as a contiguous run? -/
def charsContain (sub : List Char) : List Char → Bool
  | [] => charsStartWith sub []
  | b :: bs => charsStartWith sub (b :: bs) || charsContain sub bs

/-- JS `s.includes(sub)`. -/
def strIncludes (s sub : String) : Bool :=
  charsContain sub.data s.data

/-- White space as far as JS `trim` is concerned (the cases exercised here). -/
def isSpaceChar (c : Char) : Bool :=
  c = ' ' || c = '\t' || c = '\n' || c = '\r'

/-- Drop leading white space characters. -/
def dropLeadingSpace : List Char → List Char
  | [] => []
  | c :: cs => if isSpaceChar c then dropLeadingSpace cs else c :: cs

/-- Trim white space from both ends of a character list. -/
def trimChars (cs : List Char) : List Char :=
  dropLeadingSpace ((dropLeadingSpace cs.reverse).reverse)

/-- JS `s.trim()`. -/
def jsTrim (s : String) : String :=
  ⟨trimChars s.data⟩

/-- JS `s.slice(0, n)`. -/
def jsSlice (s : String) (n : ℕ) : String :=
  ⟨s.data.take n⟩

/-! ### Validation constants (src/ui/src/lib/profile-types.ts, `VALIDATION`) -/

namespace VALIDATION

def MAX_STRING_LENGTH : ℕ := 5000

def MAX_PROFILE_NAME_LENGTH : ℕ := 200

def MAX_NOTES_LENGTH : ℕ := 10000

def MAX_PROFILES : ℕ := 100

def MIN_SCREEN_DIM : ℚ := 100

def MAX_SCREEN_DIM : ℚ := 10000

def MIN_DPR : ℚ := 1 / 2

def MAX_DPR : ℚ := 4

end VALIDATION

/-- `PROFILE_SCHEMA_VERSION` from profile-types.ts. -/
def PROFILE_SCHEMA_VERSION : String := "1.0.0"

/-- `sanitizeString(str, maxLength)`: empty strings pass through, everything
else is sliced to `maxLength` and trimmed. -/
def sanitizeString (str : String) (maxLength : ℕ) : String :=
  if str = "" then str else jsTrim (jsSlice str maxLength)

/-- `validateScreenDim`: clamp into `[MIN_SCREEN_DIM, MAX_SCREEN_DIM]`. -/
def validateScreenDim (value : ℚ) : ℚ :=
  max VALIDATION.MIN_SCREEN_DIM (min value VALIDATION.MAX_SCREEN_DIM)

/-- `validateDPR`: clamp into `[MIN_DPR, MAX_DPR]`. -/
def validateDPR (value : ℚ) : ℚ :=
  max VALIDATION.MIN_DPR (min value VALIDATION.MAX_DPR)

/-! ### Draft (`Partial<ProfileConfig>`) and sanitized (`ProfileConfig`) shapes -/

structure DraftNavigator where
  user_agent : Option String
  platform : Option String
  oscpu : Option String
  hardware_concurrency : Option ℚ
  max_touch_points : Option ℚ
  languages : Option (List String)
  deriving DecidableEq

structure DraftScreen where
  width : Option ℚ
  height : Option ℚ
  avail_width : Option ℚ
  avail_height : Option ℚ
  device_pixel_ratio : Option ℚ
  color_depth : Option ℚ
  deriving DecidableEq

structure DraftLocale where
  language : Option String
  region : Option String
  timezone : Option String
  deriving DecidableEq

structure DraftWebGL where
  enabled : Option Bool
  vendor : Option String
  renderer : Option String
  deriving DecidableEq

structure DraftProxy where
  type : Option String
  server : Option String
  username : Option String
  password : Option String
  deriving DecidableEq

structure DraftWebRTC where
  mode : Option String
  spoof_ipv4 : Option String
  spoof_ipv6 : Option String
  deriving DecidableEq

structure DraftStorage where
  user_data_dir : Option String
  persistent_cookies : Option Bool
  deriving DecidableEq

/-- `custom_config` carries an opaque JSON object; only its presence matters. -/
def CustomConfig := List (String × String)
  deriving DecidableEq

structure ProfileDraft where
  id : Option String
  name : Option String
  notes : Option String
  created_at : Option String
  target_os : Option String
  navigator : Option DraftNavigator
  screen : Option DraftScreen
  locale : Option DraftLocale
  webgl : Option DraftWebGL
  proxy : Option DraftProxy
  webrtc : Option DraftWebRTC
  storage : Option DraftStorage
  startup_url : Option String
  startup_script : Option String
  custom_config : Option CustomConfig
  deriving DecidableEq

structure NavigatorConfig where
  user_agent : String
  platform : String
  oscpu : String
  hardware_concurrency : ℚ
  max_touch_points : ℚ
  languages : List String
  deriving DecidableEq

structure ScreenConfig where
  width : ℚ
  height : ℚ
  avail_width : ℚ
  avail_height : ℚ
  device_pixel_ratio : ℚ
  color_depth : ℚ
  deriving DecidableEq

structure LocaleConfig where
  language : String
  region : String
  timezone : String
  deriving DecidableEq

structure WebGLConfig where
  enabled : Bool
  vendor : String
  renderer : String
  deriving DecidableEq

structure ProxyConfig where
  type : String
  server : String
  username : Option String
  password : Option String
  deriving DecidableEq

structure WebRTCConfig where
  mode : String
  spoof_ipv4 : Option String
  spoof_ipv6 : Option String
  deriving DecidableEq

structure StorageConfig where
  user_data_dir : Option String
  persistent_cookies : Bool
  deriving DecidableEq

structure ProfileConfig where
  id : String
  name : String
  notes : String
  version : String
  created_at : String
  updated_at : String
  target_os : String
  browser_family : String
  navigator : NavigatorConfig
  screen : ScreenConfig
  locale : LocaleConfig
  webgl : WebGLConfig
  proxy : ProxyConfig
  webrtc : WebRTCConfig
  storage : StorageConfig
  startup_url : Option String
  startup_script : Option String
  custom_config : Option CustomConfig
  deriving DecidableEq

/-! ### The sanitizer (src/ui/tailwind.config.ts, `sanitizeProfile`)

The body of `sanitizeProfile` is split here into one definition per
configuration block, each mirroring the corresponding block of the source
function verbatim. -/

/-- `validOS.includes(input.target_os || "") ? input.target_os : "windows"`. -/
def sanitizeTargetOS (target_os : Option String) : String :=
  let validOS : List String := ["macos", "windows", "linux"]
  if validOS.contains (jsOr target_os "") then jsOr target_os "" else "windows"

/-- The `navigator` block of `sanitizeProfile`. -/
def sanitizeNavigator (nav : Option DraftNavigator) : NavigatorConfig :=
  { user_agent := sanitizeString (jsOr (nav.bind DraftNavigator.user_agent) "")
      VALIDATION.MAX_STRING_LENGTH
    platform := sanitizeString (jsOr (nav.bind DraftNavigator.platform) "")
      VALIDATION.MAX_STRING_LENGTH
    oscpu := sanitizeString (jsOr (nav.bind DraftNavigator.oscpu) "")
      VALIDATION.MAX_STRING_LENGTH
    hardware_concurrency :=
      max 1 (min (numOr (nav.bind DraftNavigator.hardware_concurrency) 8) 128)
    max_touch_points :=
      max 0 (min (numOr (nav.bind DraftNavigator.max_touch_points) 0) 20)
    languages :=
      match nav.bind DraftNavigator.languages with
      | some ls => (ls.take 10).map (fun l => sanitizeString l 20)
      | none => ["en-US", "en"] }

/-- The `screen` block of `sanitizeProfile`. -/
def sanitizeScreen (scr : Option DraftScreen) : ScreenConfig :=
  { width := validateScreenDim (numOr (scr.bind DraftScreen.width) 1920)
    height := validateScreenDim (numOr (scr.bind DraftScreen.height) 1080)
    avail_width := validateScreenDim (numOr (scr.bind DraftScreen.avail_width)
      (numOr (scr.bind DraftScreen.width) 1920))
    avail_height := validateScreenDim (numOr (scr.bind DraftScreen.avail_height)
      (numOr (scr.bind DraftScreen.height) 1080 - 40))
    device_pixel_ratio := validateDPR (numOr (scr.bind DraftScreen.device_pixel_ratio) 1)
    color_depth :=
      if ([8, 16, 24, 30, 32] : List ℚ).contains (numOr (scr.bind DraftScreen.color_depth) 24)
      then numOr (scr.bind DraftScreen.color_depth) 24
      else 24 }

/-- The `locale` block of `sanitizeProfile`. -/
def sanitizeLocale (loc : Option DraftLocale) : LocaleConfig :=
  { language := sanitizeString (jsOr (loc.bind DraftLocale.language) "en") 10
    region := sanitizeString (jsOr (loc.bind DraftLocale.region) "US") 10
    timezone := sanitizeString (jsOr (loc.bind DraftLocale.timezone) "America/New_York") 100 }

/-- The `webgl` block of `sanitizeProfile`. -/
def sanitizeWebGL (w : Option DraftWebGL) : WebGLConfig :=
  { enabled :=
      match w.bind DraftWebGL.enabled with
      | some false => false
      | _ => true
    vendor := sanitizeString (jsOr (w.bind DraftWebGL.vendor) "") VALIDATION.MAX_STRING_LENGTH
    renderer := sanitizeString (jsOr (w.bind DraftWebGL.renderer) "") VALIDATION.MAX_STRING_LENGTH }

/-- The `proxy` block of `sanitizeProfile`. -/
def sanitizeProxy (p : Option DraftProxy) : ProxyConfig :=
  let validProxyTypes : List String := ["none", "http", "socks5"]
  { type :=
      if validProxyTypes.contains (jsOr (p.bind DraftProxy.type) "")
      then jsOr (p.bind DraftProxy.type) ""
      else "none"
    server := sanitizeString (jsOr (p.bind DraftProxy.server) "") 500
    username := jsOpt (p.bind DraftProxy.username) (fun u => sanitizeString u 200)
    password := jsOpt (p.bind DraftProxy.password) (fun q => sanitizeString q 200) }

/-- The `webrtc` block of `sanitizeProfile`. -/
def sanitizeWebRTC (w : Option DraftWebRTC) : WebRTCConfig :=
  let validWebRTCModes : List String := ["disabled", "proxy_only", "default"]
  { mode :=
      if validWebRTCModes.contains (jsOr (w.bind DraftWebRTC.mode) "")
      then jsOr (w.bind DraftWebRTC.mode) ""
      else "default"
    spoof_ipv4 := jsOpt (w.bind DraftWebRTC.spoof_ipv4) (fun s => sanitizeString s 50)
    spoof_ipv6 := jsOpt (w.bind DraftWebRTC.spoof_ipv6) (fun s => sanitizeString s 100) }

/-- The `storage` block of `sanitizeProfile`. -/
def sanitizeStorage (st : Option DraftStorage) : StorageConfig :=
  { user_data_dir := jsOpt (st.bind DraftStorage.user_data_dir) (fun s => sanitizeString s 500)
    persistent_cookies :=
      match st.bind DraftStorage.persistent_cookies with
      | some false => false
      | _ => true }

/-- `sanitizeProfile(input)`.  The impure inputs of the source function are
passed explicitly: `now` models `new Date().toISOString()` and `freshId`
models `generateUUID()`. -/
def sanitizeProfile (input : ProfileDraft) (now freshId : String) : ProfileConfig :=
  { id := jsOr input.id freshId
    name := sanitizeString (jsOr input.name "Perfil sem nome") VALIDATION.MAX_PROFILE_NAME_LENGTH
    notes := sanitizeString (jsOr input.notes "") VALIDATION.MAX_NOTES_LENGTH
    version := PROFILE_SCHEMA_VERSION
    created_at := jsOr input.created_at now
    updated_at := now
    target_os := sanitizeTargetOS input.target_os
    browser_family := "firefox"
    navigator := sanitizeNavigator input.navigator
    screen := sanitizeScreen input.screen
    locale := sanitizeLocale input.locale
    webgl := sanitizeWebGL input.webgl
    proxy := sanitizeProxy input.proxy
    webrtc := sanitizeWebRTC input.webrtc
    storage := sanitizeStorage input.storage
    startup_url := jsOpt input.startup_url (fun s => sanitizeString s 2000)
    startup_script := jsOpt input.startup_script (fun s => sanitizeString s 10000)
    custom_config := input.custom_config }

/-! ### Storage guard (src/ui/tailwind.config.ts, `getProfilePath` / `saveProfile`) -/

inductive SaveError where
  | invalidIdentifier
  | recordLimitExceeded
  deriving DecidableEq

/-- The id guard of `getProfilePath`: rejects empty ids and ids containing
`..`, `/` or `\`. -/
def isInvalidProfileId (profileId : String) : Bool :=
  profileId == "" || strIncludes profileId ".." || strIncludes profileId "/" ||
    strIncludes profileId "\\"

/-- `getProfilePath(profileId)` relative to the profiles directory `dir`. -/
def getProfilePath (dir profileId : String) : Except SaveError String :=
  if isInvalidProfileId profileId then Except.error SaveError.invalidIdentifier
  else Except.ok (dir ++ "/" ++ profileId ++ ".json")

/-- `saveProfile(input)` against a store whose current contents are
`existing` (the result of `listProfiles()`).  A new profile is rejected when
the store is full and the draft carries no id (`!input.id`); otherwise the
draft is sanitized and written at `getProfilePath(profile.id)`. -/
def saveProfile (existing : List ProfileConfig) (input : ProfileDraft)
    (now freshId : String) : Except SaveError ProfileConfig :=
  if VALIDATION.MAX_PROFILES ≤ existing.length ∧ jsOr input.id "" = "" then
    Except.error SaveError.recordLimitExceeded
  else
    let profile := sanitizeProfile input now freshId
    match getProfilePath "profiles" profile.id with
    | Except.error e => Except.error e
    | Except.ok _ => Except.ok profile

/-! ### Consistency checker (src/profiles/README.md, `validateConsistency`) -/

inductive IssueLevel where
  | error
  | warning
  | info
  deriving DecidableEq

structure ConsistencyIssue where
  level : IssueLevel
  message : String
  field : String
  suggestion : String
  deriving DecidableEq

/-- The wizard form state the checker runs on. -/
structure FormData where
  templateId : String
  name : String
  notes : String
  template : String
  userAgent : String
  os : String
  platform : String
  oscpu : String
  screenWidth : ℚ
  screenHeight : ℚ
  devicePixelRatio : ℚ
  webglVendor : String
  webglRenderer : String
  timezone : String
  locale : String
  proxyType : String
  proxyAddress : String
  webrtcMode : String
  storagePath : String
  deriving DecidableEq

/-- `osPatterns[os]`: a string-keyed object lookup, `none` for unknown keys. -/
def osPatterns (os : String) : Option (List String) :=
  if os = "macos" then some ["MacIntel", "MacPPC"]
  else if os = "windows" then some ["Win32", "Win64"]
  else if os = "linux" then some ["Linux"]
  else none

/-- `uaPatterns[os]`. -/
def uaPatterns (os : String) : Option (List String) :=
  if os = "macos" then some ["Macintosh", "Mac OS X"]
  else if os = "windows" then some ["Windows NT"]
  else if os = "linux" then some ["Linux", "X11"]
  else none

/-- The OS/Platform block of `validateConsistency`. -/
def platformIssues (data : FormData) : List ConsistencyIssue :=
  match osPatterns data.os with
  | none => []
  | some pats =>
    if data.platform != "" && !(pats.any fun p => strIncludes data.platform p) then
      [{ level := IssueLevel.error
         message := "Platform \"" ++ data.platform ++ "\" does not match OS \"" ++
           data.os ++ "\""
         field := "platform"
         suggestion := "Use one of: " ++ String.intercalate ", " pats }]
    else []

/-- The OS/User-Agent block of `validateConsistency`. -/
def uaIssues (data : FormData) : List ConsistencyIssue :=
  match uaPatterns data.os with
  | none => []
  | some pats =>
    if data.userAgent != "" && !(pats.any fun p => strIncludes data.userAgent p) then
      [{ level := IssueLevel.error
         message := "User-Agent does not contain expected patterns for \"" ++
           data.os ++ "\""
         field := "userAgent"
         suggestion := "User-Agent should contain one of: " ++ String.intercalate ", " pats }]
    else []

/-- The WebGL/OS block of `validateConsistency`. -/
def webglIssues (data : FormData) : List ConsistencyIssue :=
  if data.webglRenderer != "" then
    (if data.os == "macos" &&
        (strIncludes data.webglRenderer.toLower "direct3d" ||
          strIncludes data.webglRenderer.toLower "angle") then
      [{ level := IssueLevel.error
         message := "Direct3D/ANGLE renderer detected with macOS target"
         field := "webglRenderer"
         suggestion := "macOS typically uses Apple GPU or OpenGL renderers" }]
    else []) ++
    (if data.os == "windows" && strIncludes data.webglRenderer.toLower "apple m" then
      [{ level := IssueLevel.error
         message := "Apple renderer detected with Windows target"
         field := "webglRenderer"
         suggestion := "Windows typically uses ANGLE (Direct3D) or native GPU renderers" }]
    else [])
  else []

/-- The macOS device-pixel-ratio block of `validateConsistency`. -/
def dprIssues (data : FormData) : List ConsistencyIssue :=
  if data.os == "macos" && data.devicePixelRatio != 1 && data.devicePixelRatio != 2 then
    [{ level := IssueLevel.warning
       message := "Device pixel ratio " ++ toString data.devicePixelRatio ++
         " is unusual for macOS"
       field := "devicePixelRatio"
       suggestion := "macOS typically uses 1.0 (standard) or 2.0 (Retina)" }]
  else []

/-- The WebRTC/proxy block of `validateConsistency`. -/
def webrtcIssues (data : FormData) : List ConsistencyIssue :=
  if data.proxyType != "none" && data.proxyAddress != "" && data.webrtcMode == "default" then
    [{ level := IssueLevel.warning
       message := "WebRTC is enabled with proxy but mode is \x27default\x27"
       field := "webrtcMode"
       suggestion :=
         "Consider setting webrtc mode to \x27disabled\x27 or \x27proxy_only\x27 to prevent IP leaks" }]
  else []

/-- `validateConsistency(data)`: the five rule blocks push their issues in
source order; each block contributes its (possibly empty) sublist. -/
def validateConsistency (data : FormData) : List ConsistencyIssue :=
  platformIssues data ++ uaIssues data ++ webglIssues data ++ dprIssues data ++
    webrtcIssues data

/-- Number of issues raised at a given field with a given level. -/
def countIssuesAt (issues : List ConsistencyIssue) (f : String) (lvl : IssueLevel) : ℕ :=
  (issues.filter fun i => i.field == f && i.level == lvl).length

/-! ### Concrete inputs used by the claim witnesses and counterexamples -/

/-- A draft with every field absent. -/
def emptyDraft : ProfileDraft :=
  { id := none, name := none, notes := none, created_at := none, target_os := none
    navigator := none, screen := none, locale := none, webgl := none, proxy := none
    webrtc := none, storage := none, startup_url := none, startup_script := none
    custom_config := none }

/-- A draft supplying the path-traversal id `..`. -/
def dotDotIdDraft : ProfileDraft := { emptyDraft with id := some ".." }

/-- A draft supplying an id containing `/`. -/
def slashIdDraft : ProfileDraft := { emptyDraft with id := some "a/b" }

/-- A draft asking for 9999 logical cores. -/
def hc9999Draft : ProfileDraft :=
  { emptyDraft with navigator := some ⟨none, none, none, some 9999, none, none⟩ }

/-- A draft asking for 0 logical cores. -/
def hc0Draft : ProfileDraft :=
  { emptyDraft with navigator := some ⟨none, none, none, some 0, none, none⟩ }

/-- A draft exercising all four enum fields: a valid `target_os`, an invalid
`proxy.type`, an absent `webrtc.mode` and an out-of-set `color_depth`. -/
def enumDraft : ProfileDraft :=
  { emptyDraft with
    target_os := some "macos"
    proxy := some ⟨some "bogus", none, none, none⟩
    screen := some ⟨none, none, none, none, none, some 10⟩ }

/-- A draft whose name is whitespace only, so that it sanitizes to `""`. -/
def blankNameDraft : ProfileDraft :=
  { emptyDraft with id := some "p1", name := some "   " }

/-- A well-behaved draft used to witness the re-sanitization theorem. -/
def stableDraft : ProfileDraft :=
  { emptyDraft with id := some "p1", created_at := some "2024-01-01T00:00:00.000Z" }

/-- A concrete stored profile (the sanitized empty draft). -/
def profile0 : ProfileConfig :=
  sanitizeProfile emptyDraft "2024-01-01T00:00:00.000Z" "uuid-0"

/-- A store already holding `MAX_PROFILES` records. -/
def fullStore : List ProfileConfig := List.replicate 100 profile0

/-- Form state with every field blank (numbers 0, strings empty). -/
def formBase : FormData :=
  { templateId := "", name := "", notes := "", template := "", userAgent := ""
    os := "", platform := "", oscpu := "", screenWidth := 0, screenHeight := 0
    devicePixelRatio := 0, webglVendor := "", webglRenderer := "", timezone := ""
    locale := "", proxyType := "", proxyAddress := "", webrtcMode := ""
    storagePath := "" }

/-- macOS target with a blank platform/UA/renderer and an implausible DPR. -/
def blankMacForm : FormData :=
  { formBase with os := "macos", devicePixelRatio := 3 }

/-- The issue `blankMacForm` is expected to raise. -/
def blankMacDprIssue : ConsistencyIssue :=
  { level := IssueLevel.warning
    message := "Device pixel ratio " ++ toString (3 : ℚ) ++ " is unusual for macOS"
    field := "devicePixelRatio"
    suggestion := "macOS typically uses 1.0 (standard) or 2.0 (Retina)" }

/-- A proxied form whose WebRTC mode is left at `default`. -/
def proxiedDefaultForm : FormData :=
  { formBase with
    proxyType := "socks5"
    proxyAddress := "1.2.3.4:1080"
    webrtcMode := "default" }

/-- macOS target with DPR 1.5. -/
def macDpr15Form : FormData :=
  { formBase with os := "macos", devicePixelRatio := 3 / 2 }

/-- macOS target with DPR 2.0. -/
def macDpr2Form : FormData :=
  { formBase with os := "macos", devicePixelRatio := 2 }

/-- Unrecognized OS with mismatching platform and UA, plus a proxied
WebRTC-default combination so that the issue list is non-empty. -/
def freebsdForm : FormData :=
  { formBase with
    os := "freebsd"
    platform := "Win32"
    userAgent := "Mozilla/5.0 (Windows NT 10.0)"
    proxyType := "socks5"
    proxyAddress := "1.2.3.4:1080"
    webrtcMode := "default" }

/-- The issue `freebsdForm` is expected to raise. -/
def webrtcLeakIssue : ConsistencyIssue :=
  { level := IssueLevel.warning
    message := "WebRTC is enabled with proxy but mode is \x27default\x27"
    field := "webrtcMode"
    suggestion :=
      "Consider setting webrtc mode to \x27disabled\x27 or \x27proxy_only\x27 to prevent IP leaks" }

/-! ### Feeding a sanitized record back as a draft (re-sanitization) -/

/-- View a sanitized navigator as draft input. -/
def navToDraft (n : NavigatorConfig) : DraftNavigator :=
  ⟨some n.user_agent, some n.platform, some n.oscpu, some n.hardware_concurrency,
    some n.max_touch_points, some n.languages⟩

/-- View a sanitized screen as draft input. -/
def screenToDraft (s : ScreenConfig) : DraftScreen :=
  ⟨some s.width, some s.height, some s.avail_width, some s.avail_height,
    some s.device_pixel_ratio, some s.color_depth⟩

/-- View a sanitized locale as draft input. -/
def localeToDraft (l : LocaleConfig) : DraftLocale :=
  ⟨some l.language, some l.region, some l.timezone⟩

/-- View a sanitized WebGL block as draft input. -/
def webglToDraft (w : WebGLConfig) : DraftWebGL :=
  ⟨some w.enabled, some w.vendor, some w.renderer⟩

/-- View a sanitized proxy block as draft input. -/
def proxyToDraft (p : ProxyConfig) : DraftProxy :=
  ⟨some p.type, some p.server, p.username, p.password⟩

/-- View a sanitized WebRTC block as draft input. -/
def webrtcToDraft (w : WebRTCConfig) : DraftWebRTC :=
  ⟨some w.mode, w.spoof_ipv4, w.spoof_ipv6⟩

/-- View a sanitized storage block as draft input. -/
def storageToDraft (s : StorageConfig) : DraftStorage :=
  ⟨s.user_data_dir, some s.persistent_cookies⟩

/-- Feed a sanitized record back to the sanitizer as a draft with the same
id, as a JSON round trip through the profile store does. -/
def recordToDraft (p : ProfileConfig) : ProfileDraft :=
  { id := some p.id
    name := some p.name
    notes := some p.notes
    created_at := some p.created_at
    target_os := some p.target_os
    navigator := some (navToDraft p.navigator)
    screen := some (screenToDraft p.screen)
    locale := some (localeToDraft p.locale)
    webgl := some (webglToDraft p.webgl)
    proxy := some (proxyToDraft p.proxy)
    webrtc := some (webrtcToDraft p.webrtc)
    storage := some (storageToDraft p.storage)
    startup_url := p.startup_url
    startup_script := p.startup_script
    custom_config := p.custom_config }

attribute [ext] NavigatorConfig ScreenConfig LocaleConfig WebGLConfig
attribute [ext] ProxyConfig WebRTCConfig StorageConfig

/-! ### Helper lemmas -/

theorem jsOr_some_empty (s : String) : jsOr (some s) "" = s := by
  by_cases h : s = "" <;> simp [jsOr, h]

theorem numOr_some_of_ne (x d : ℚ) (h : x ≠ 0) : numOr (some x) d = x := by
  simp [numOr, h]

theorem clamp_bounds (lo hi x : ℚ) (h : lo ≤ hi) :
    lo ≤ max lo (min x hi) ∧ max lo (min x hi) ≤ hi :=
  ⟨le_max_left _ _, max_le h (min_le_right _ _)⟩

theorem clamp_eq_of_mem (lo hi x : ℚ) (h1 : lo ≤ x) (h2 : x ≤ hi) :
    max lo (min x hi) = x := by
  rw [min_eq_left h2, max_eq_right h1]

theorem dropLeadingSpace_length (l : List Char) :
    (dropLeadingSpace l).length ≤ l.length := by
  induction l with
  | nil => exact le_refl _
  | cons c cs ih =>
    simp only [dropLeadingSpace]
    split
    · exact le_trans ih (Nat.le_succ _)
    · exact le_refl _

theorem trimChars_length (l : List Char) : (trimChars l).length ≤ l.length := by
  unfold trimChars
  calc (dropLeadingSpace ((dropLeadingSpace l.reverse).reverse)).length
      ≤ ((dropLeadingSpace l.reverse).reverse).length := dropLeadingSpace_length _
    _ = (dropLeadingSpace l.reverse).length := List.length_reverse _
    _ ≤ l.reverse.length := dropLeadingSpace_length _
    _ = l.length := List.length_reverse _

theorem dropLeadingSpace_head_false (l : List Char) :
    dropLeadingSpace l = [] ∨
      ∃ c cs, dropLeadingSpace l = c :: cs ∧ isSpaceChar c = false := by
  induction l with
  | nil => exact Or.inl rfl
  | cons c cs ih =>
    simp only [dropLeadingSpace]
    cases hsp : isSpaceChar c with
    | true => simpa [hsp] using ih
    | false => exact Or.inr ⟨c, cs, by simp [hsp], hsp⟩

theorem dropLeadingSpace_eq_self (l : List Char)
    (h : ∀ c cs, l = c :: cs → isSpaceChar c = false) : dropLeadingSpace l = l := by
  cases l with
  | nil => rfl
  | cons c cs => simp [dropLeadingSpace, h c cs rfl]

theorem dropLeadingSpace_idem (l : List Char) :
    dropLeadingSpace (dropLeadingSpace l) = dropLeadingSpace l := by
  rcases dropLeadingSpace_head_false l with h | ⟨c, cs, h, hc⟩
  · rw [h]; rfl
  · rw [h]; simp [dropLeadingSpace, hc]

theorem dropLeadingSpace_getLast? (l : List Char) (h : dropLeadingSpace l ≠ []) :
    (dropLeadingSpace l).getLast? = l.getLast? := by
  induction l with
  | nil => rfl
  | cons c cs ih =>
    simp only [dropLeadingSpace] at h ⊢
    cases hsp : isSpaceChar c with
    | false => simp [hsp]
    | true =>
      simp only [hsp, if_true] at h ⊢
      rw [ih h]
      cases cs with
      | nil => exact absurd rfl h
      | cons d ds => simp [List.getLast?_cons_cons]

theorem trimChars_idem (l : List Char) : trimChars (trimChars l) = trimChars l := by
  by_cases hte : trimChars l = []
  · rw [hte]; rfl
  · rcases dropLeadingSpace_head_false l.reverse with h3 | ⟨c, cs, h3, hc⟩
    · exfalso
      apply hte
      unfold trimChars
      rw [h3]
      rfl
    · have h1 : (trimChars l).getLast? = ((dropLeadingSpace l.reverse).reverse).getLast? :=
        dropLeadingSpace_getLast? _ hte
      have h2 : ((dropLeadingSpace l.reverse).reverse).getLast? =
          (dropLeadingSpace l.reverse).head? := by
        rw [← List.head?_reverse, List.reverse_reverse]
      have hlast : (trimChars l).getLast? = some c := by
        rw [h1, h2, h3]
        rfl
      have h4 : dropLeadingSpace (trimChars l).reverse = (trimChars l).reverse := by
        apply dropLeadingSpace_eq_self
        intro d ds hds
        have hhd : (trimChars l).reverse.head? = some d := by rw [hds]; rfl
        rw [List.head?_reverse, hlast] at hhd
        injection hhd with h5
        rwa [← h5]
      show dropLeadingSpace ((dropLeadingSpace (trimChars l).reverse).reverse) = trimChars l
      rw [h4, List.reverse_reverse]
      exact dropLeadingSpace_idem _

theorem sanitizeString_idem (s : String) (n : ℕ) :
    sanitizeString (sanitizeString s n) n = sanitizeString s n := by
  unfold sanitizeString
  by_cases hs : s = ""
  · simp [hs]
  · rw [if_neg hs]
    by_cases ht : jsTrim (jsSlice s n) = ""
    · rw [if_pos ht]
    · rw [if_neg ht]
      have hdata : (jsTrim (jsSlice s n)).data = trimChars (s.data.take n) := rfl
      have hlen : (jsTrim (jsSlice s n)).data.length ≤ n := by
        rw [hdata]
        refine le_trans (trimChars_length _) ?_
        rw [List.length_take]
        exact min_le_left _ _
      have hslice : jsSlice (jsTrim (jsSlice s n)) n = jsTrim (jsSlice s n) := by
        show String.mk ((jsTrim (jsSlice s n)).data.take n) = jsTrim (jsSlice s n)
        rw [List.take_of_length_le hlen]
      rw [hslice]
      show String.mk (trimChars (jsTrim (jsSlice s n)).data) = jsTrim (jsSlice s n)
      rw [hdata, trimChars_idem]
      rfl

theorem numOr_some_zero (x : ℚ) : numOr (some x) 0 = x := by
  by_cases h : x = 0 <;> simp [numOr, h]

theorem jsOr_some_of_ne (s d : String) (h : s ≠ "") : jsOr (some s) d = s := by
  simp [jsOr, h]

theorem resan_default_empty (u : String) (n : ℕ) :
    sanitizeString (jsOr (some (sanitizeString u n)) "") n = sanitizeString u n := by
  rw [jsOr_some_empty]
  exact sanitizeString_idem u n

theorem resan_langs (xs : List String) (hlen : xs.length ≤ 10)
    (hfix : ∀ x ∈ xs, sanitizeString x 20 = x) :
    (xs.take 10).map (fun l => sanitizeString l 20) = xs := by
  rw [List.take_of_length_le hlen]
  calc xs.map (fun l => sanitizeString l 20) = xs.map id := List.map_congr_left hfix
    _ = xs := List.map_id xs

theorem sanitizeNavigator_resan (nav : Option DraftNavigator) :
    sanitizeNavigator (some (navToDraft (sanitizeNavigator nav))) = sanitizeNavigator nav := by
  have hhc := clamp_bounds 1 128 (numOr (nav.bind DraftNavigator.hardware_concurrency) 8)
    (by norm_num)
  have hmtp := clamp_bounds 0 20 (numOr (nav.bind DraftNavigator.max_touch_points) 0)
    (by norm_num)
  ext : 1
  · exact resan_default_empty _ _
  · exact resan_default_empty _ _
  · exact resan_default_empty _ _
  · show max 1 (min (numOr (some (sanitizeNavigator nav).hardware_concurrency) 8) 128) = _
    rw [numOr_some_of_ne _ _ (by have := hhc.1; intro h0; rw [show
      (sanitizeNavigator nav).hardware_concurrency = max 1 (min (numOr
      (nav.bind DraftNavigator.hardware_concurrency) 8) 128) from rfl] at h0; linarith)]
    exact clamp_eq_of_mem _ _ _ hhc.1 hhc.2
  · show max 0 (min (numOr (some (sanitizeNavigator nav).max_touch_points) 0) 20) = _
    rw [numOr_some_zero]
    exact clamp_eq_of_mem _ _ _ hmtp.1 hmtp.2
  · show ((sanitizeNavigator nav).languages.take 10).map (fun l => sanitizeString l 20) = _
    apply resan_langs
    · show (match nav.bind DraftNavigator.languages with
        | some ls => (ls.take 10).map (fun l => sanitizeString l 20)
        | none => ["en-US", "en"]).length ≤ 10
      cases nav.bind DraftNavigator.languages with
      | none => decide
      | some ls =>
        simp only [List.length_map, List.length_take]
        exact le_trans (min_le_left _ _) (le_refl _)
    · show ∀ x ∈ (match nav.bind DraftNavigator.languages with
        | some ls => (ls.take 10).map (fun l => sanitizeString l 20)
        | none => ["en-US", "en"]), sanitizeString x 20 = x
      cases nav.bind DraftNavigator.languages with
      | none =>
        intro x hx
        simp only [List.mem_cons, List.not_mem_nil, or_false] at hx
        rcases hx with h | h <;> subst h <;> decide
      | some ls =>
        intro x hx
        rcases List.mem_map.mp hx with ⟨y, _, hy⟩
        rw [← hy]
        exact sanitizeString_idem y 20

theorem contains_of_mem {α : Type} [BEq α] [LawfulBEq α] {l : List α} {x : α}
    (h : x ∈ l) : l.contains x = true := by
  simpa using h

theorem mem_of_contains {α : Type} [BEq α] [LawfulBEq α] {l : List α} {x : α}
    (h : l.contains x = true) : x ∈ l := by
  simpa using h

theorem validateScreenDim_bounds (v : ℚ) :
    100 ≤ validateScreenDim v ∧ validateScreenDim v ≤ 10000 := by
  have h := clamp_bounds 100 10000 v (by norm_num)
  simpa [validateScreenDim, VALIDATION.MIN_SCREEN_DIM, VALIDATION.MAX_SCREEN_DIM] using h

theorem validateDPR_bounds (v : ℚ) : 1 / 2 ≤ validateDPR v ∧ validateDPR v ≤ 4 := by
  have h := clamp_bounds (1 / 2) 4 v (by norm_num)
  simpa [validateDPR, VALIDATION.MIN_DPR, VALIDATION.MAX_DPR] using h

theorem validateScreenDim_resan (v d : ℚ) :
    validateScreenDim (numOr (some (validateScreenDim v)) d) = validateScreenDim v := by
  have hb := validateScreenDim_bounds v
  rw [numOr_some_of_ne _ _ (by linarith [hb.1])]
  unfold validateScreenDim
  exact clamp_eq_of_mem _ _ _ hb.1 hb.2

theorem validateDPR_resan (v d : ℚ) :
    validateDPR (numOr (some (validateDPR v)) d) = validateDPR v := by
  have hb := validateDPR_bounds v
  rw [numOr_some_of_ne _ _ (by linarith [hb.1])]
  unfold validateDPR
  exact clamp_eq_of_mem _ _ _ hb.1 hb.2

theorem sanitizeScreen_color_depth_mem (scr : Option DraftScreen) :
    (sanitizeScreen scr).color_depth ∈ ([8, 16, 24, 30, 32] : List ℚ) := by
  show (if ([8, 16, 24, 30, 32] : List ℚ).contains (numOr (scr.bind DraftScreen.color_depth) 24)
    then numOr (scr.bind DraftScreen.color_depth) 24 else 24) ∈ _
  by_cases h : ([8, 16, 24, 30, 32] : List ℚ).contains (numOr (scr.bind DraftScreen.color_depth) 24) = true
  · simp only [h, if_true]
    exact mem_of_contains h
  · simp only [h, if_false]
    norm_num

theorem color_depth_ne_zero {x : ℚ} (h : x ∈ ([8, 16, 24, 30, 32] : List ℚ)) : x ≠ 0 := by
  fin_cases h <;> norm_num

theorem sanitizeScreen_resan (scr : Option DraftScreen) :
    sanitizeScreen (some (screenToDraft (sanitizeScreen scr))) = sanitizeScreen scr := by
  have hcd := sanitizeScreen_color_depth_mem scr
  ext : 1
  · exact validateScreenDim_resan _ _
  · exact validateScreenDim_resan _ _
  · exact validateScreenDim_resan _ _
  · exact validateScreenDim_resan _ _
  · exact validateDPR_resan _ _
  · show (if ([8, 16, 24, 30, 32] : List ℚ).contains
        (numOr (some (sanitizeScreen scr).color_depth) 24)
      then numOr (some (sanitizeScreen scr).color_depth) 24 else 24) =
      (sanitizeScreen scr).color_depth
    rw [numOr_some_of_ne _ _ (color_depth_ne_zero hcd)]
    rw [if_pos (contains_of_mem hcd)]

theorem sanitizeTargetOS_mem (o : Option String) :
    sanitizeTargetOS o ∈ (["macos", "windows", "linux"] : List String) := by
  show (if (["macos", "windows", "linux"] : List String).contains (jsOr o "")
    then jsOr o "" else "windows") ∈ _
  by_cases h : (["macos", "windows", "linux"] : List String).contains (jsOr o "") = true
  · simp only [h, if_true]
    exact mem_of_contains h
  · simp only [h, if_false]
    simp

theorem sanitizeTargetOS_resan (o : Option String) :
    sanitizeTargetOS (some (sanitizeTargetOS o)) = sanitizeTargetOS o := by
  have hm := sanitizeTargetOS_mem o
  show (if (["macos", "windows", "linux"] : List String).contains
      (jsOr (some (sanitizeTargetOS o)) "")
    then jsOr (some (sanitizeTargetOS o)) "" else "windows") = sanitizeTargetOS o
  rw [jsOr_some_empty, if_pos (contains_of_mem hm)]

theorem sanitizeProxy_type_mem (p : Option DraftProxy) :
    (sanitizeProxy p).type ∈ (["none", "http", "socks5"] : List String) := by
  show (if (["none", "http", "socks5"] : List String).contains (jsOr (p.bind DraftProxy.type) "")
    then jsOr (p.bind DraftProxy.type) "" else "none") ∈ _
  by_cases h : (["none", "http", "socks5"] : List String).contains
      (jsOr (p.bind DraftProxy.type) "") = true
  · simp only [h, if_true]
    exact mem_of_contains h
  · simp only [h, if_false]
    simp

theorem sanitizeWebRTC_mode_mem (w : Option DraftWebRTC) :
    (sanitizeWebRTC w).mode ∈ (["disabled", "proxy_only", "default"] : List String) := by
  show (if (["disabled", "proxy_only", "default"] : List String).contains
      (jsOr (w.bind DraftWebRTC.mode) "")
    then jsOr (w.bind DraftWebRTC.mode) "" else "default") ∈ _
  by_cases h : (["disabled", "proxy_only", "default"] : List String).contains
      (jsOr (w.bind DraftWebRTC.mode) "") = true
  · simp only [h, if_true]
    exact mem_of_contains h
  · simp only [h, if_false]
    simp

theorem sanitizeWebRTC_mode_resan (w : Option DraftWebRTC) :
    (if (["disabled", "proxy_only", "default"] : List String).contains
        (jsOr (some (sanitizeWebRTC w).mode) "")
      then jsOr (some (sanitizeWebRTC w).mode) "" else "default") = (sanitizeWebRTC w).mode := by
  have hm := sanitizeWebRTC_mode_mem w
  rw [jsOr_some_empty, if_pos (contains_of_mem hm)]

theorem sanitizeProxy_type_resan (p : Option DraftProxy) :
    (if (["none", "http", "socks5"] : List String).contains
        (jsOr (some (sanitizeProxy p).type) "")
      then jsOr (some (sanitizeProxy p).type) "" else "none") = (sanitizeProxy p).type := by
  have hm := sanitizeProxy_type_mem p
  rw [jsOr_some_empty, if_pos (contains_of_mem hm)]

theorem jsOpt_sanitize_fix (o : Option String) (n : ℕ) (s : String)
    (h : jsOpt o (fun u => sanitizeString u n) = some s) : sanitizeString s n = s := by
  cases o with
  | none => simp [jsOpt] at h
  | some u =>
    by_cases hu : u = ""
    · simp [jsOpt, hu] at h
    · simp only [jsOpt, hu, if_neg, if_false, Option.some.injEq] at h
      rw [← h]
      exact sanitizeString_idem u n

theorem jsOpt_resan (o : Option String) (n : ℕ)
    (hne : jsOpt o (fun u => sanitizeString u n) ≠ some "") :
    jsOpt (jsOpt o (fun u => sanitizeString u n)) (fun u => sanitizeString u n) =
      jsOpt o (fun u => sanitizeString u n) := by
  cases himg : jsOpt o (fun u => sanitizeString u n) with
  | none => rfl
  | some s =>
    have hs : s ≠ "" := by
      intro h0
      exact hne (h0 ▸ himg)
    have hfix := jsOpt_sanitize_fix o n s himg
    simp [jsOpt, hs, hfix]

theorem sanitizeLocale_resan (loc : Option DraftLocale)
    (h1 : (sanitizeLocale loc).language ≠ "")
    (h2 : (sanitizeLocale loc).region ≠ "")
    (h3 : (sanitizeLocale loc).timezone ≠ "") :
    sanitizeLocale (some (localeToDraft (sanitizeLocale loc))) = sanitizeLocale loc := by
  ext : 1
  · show sanitizeString (jsOr (some (sanitizeLocale loc).language) "en") 10 =
      (sanitizeLocale loc).language
    rw [jsOr_some_of_ne _ _ h1]
    exact sanitizeString_idem _ 10
  · show sanitizeString (jsOr (some (sanitizeLocale loc).region) "US") 10 =
      (sanitizeLocale loc).region
    rw [jsOr_some_of_ne _ _ h2]
    exact sanitizeString_idem _ 10
  · show sanitizeString (jsOr (some (sanitizeLocale loc).timezone) "America/New_York") 100 =
      (sanitizeLocale loc).timezone
    rw [jsOr_some_of_ne _ _ h3]
    exact sanitizeString_idem _ 100

theorem sanitizeWebGL_resan (w : Option DraftWebGL) :
    sanitizeWebGL (some (webglToDraft (sanitizeWebGL w))) = sanitizeWebGL w := by
  ext : 1
  · show (match some (sanitizeWebGL w).enabled with
      | some false => false
      | _ => true) = (sanitizeWebGL w).enabled
    generalize (sanitizeWebGL w).enabled = b
    cases b <;> rfl
  · exact resan_default_empty _ _
  · exact resan_default_empty _ _

theorem sanitizeProxy_resan (p : Option DraftProxy)
    (hu : (sanitizeProxy p).username ≠ some "")
    (hp : (sanitizeProxy p).password ≠ some "") :
    sanitizeProxy (some (proxyToDraft (sanitizeProxy p))) = sanitizeProxy p := by
  ext : 1
  · exact sanitizeProxy_type_resan p
  · exact resan_default_empty _ _
  · exact jsOpt_resan _ 200 hu
  · exact jsOpt_resan _ 200 hp

theorem sanitizeWebRTC_resan (w : Option DraftWebRTC)
    (h4 : (sanitizeWebRTC w).spoof_ipv4 ≠ some "")
    (h6 : (sanitizeWebRTC w).spoof_ipv6 ≠ some "") :
    sanitizeWebRTC (some (webrtcToDraft (sanitizeWebRTC w))) = sanitizeWebRTC w := by
  ext : 1
  · exact sanitizeWebRTC_mode_resan w
  · exact jsOpt_resan _ 50 h4
  · exact jsOpt_resan _ 100 h6

theorem sanitizeStorage_resan (st : Option DraftStorage)
    (hd : (sanitizeStorage st).user_data_dir ≠ some "") :
    sanitizeStorage (some (storageToDraft (sanitizeStorage st))) = sanitizeStorage st := by
  ext : 1
  · exact jsOpt_resan _ 500 hd
  · show (match some (sanitizeStorage st).persistent_cookies with
      | some false => false
      | _ => true) = (sanitizeStorage st).persistent_cookies
    generalize (sanitizeStorage st).persistent_cookies = b
    cases b <;> rfl

theorem platformIssues_field (data : FormData) (i : ConsistencyIssue)
    (h : i ∈ platformIssues data) :
    i.field = "platform" ∧ i.level = IssueLevel.error ∧ data.platform ≠ "" ∧
      osPatterns data.os ≠ none := by
  cases hos : osPatterns data.os with
  | none => simp [platformIssues, hos] at h
  | some pats =>
    simp only [platformIssues, hos] at h
    split at h
    · next hc =>
      simp only [List.mem_singleton] at h
      subst h
      refine ⟨rfl, rfl, ?_, by simp [hos]⟩
      simp only [Bool.and_eq_true, bne_iff_ne] at hc
      exact hc.1
    · simp at h

theorem uaIssues_field (data : FormData) (i : ConsistencyIssue)
    (h : i ∈ uaIssues data) :
    i.field = "userAgent" ∧ i.level = IssueLevel.error ∧ data.userAgent ≠ "" ∧
      uaPatterns data.os ≠ none := by
  cases hos : uaPatterns data.os with
  | none => simp [uaIssues, hos] at h
  | some pats =>
    simp only [uaIssues, hos] at h
    split at h
    · next hc =>
      simp only [List.mem_singleton] at h
      subst h
      refine ⟨rfl, rfl, ?_, by simp [hos]⟩
      simp only [Bool.and_eq_true, bne_iff_ne] at hc
      exact hc.1
    · simp at h

theorem webglIssues_field (data : FormData) (i : ConsistencyIssue)
    (h : i ∈ webglIssues data) :
    i.field = "webglRenderer" ∧ i.level = IssueLevel.error ∧ data.webglRenderer ≠ "" := by
  unfold webglIssues at h
  split at h
  · next hr =>
    have hrne : data.webglRenderer ≠ "" := by simpa using hr
    rcases List.mem_append.mp h with h1 | h1 <;>
      [skip; skip] <;>
      · split at h1
        · next =>
          simp only [List.mem_singleton] at h1
          subst h1
          exact ⟨rfl, rfl, hrne⟩
        · simp at h1
  · simp at h

theorem dprIssues_field (data : FormData) (i : ConsistencyIssue)
    (h : i ∈ dprIssues data) :
    i.field = "devicePixelRatio" ∧ i.level = IssueLevel.warning ∧ data.os = "macos" := by
  unfold dprIssues at h
  split at h
  · next hc =>
    simp only [List.mem_singleton] at h
    subst h
    refine ⟨rfl, rfl, ?_⟩
    simp only [Bool.and_eq_true, beq_iff_eq, bne_iff_ne] at hc
    exact hc.1.1
  · simp at h

theorem webrtcIssues_field (data : FormData) (i : ConsistencyIssue)
    (h : i ∈ webrtcIssues data) :
    i.field = "webrtcMode" ∧ i.level = IssueLevel.warning ∧ data.webrtcMode = "default" := by
  unfold webrtcIssues at h
  split at h
  · next hc =>
    simp only [List.mem_singleton] at h
    subst h
    refine ⟨rfl, rfl, ?_⟩
    simp only [Bool.and_eq_true, beq_iff_eq, bne_iff_ne] at hc
    exact hc.2
  · simp at h

theorem filter_field_eq_nil (xs : List ConsistencyIssue) (f : String) (lvl : IssueLevel)
    (h : ∀ i ∈ xs, i.field ≠ f) :
    (xs.filter fun i => i.field == f && i.level == lvl) = [] := by
  apply List.filter_eq_nil_iff.mpr
  intro i hi
  simp only [Bool.and_eq_true, beq_iff_eq, not_and]
  intro hf
  exact absurd hf (h i hi)

theorem filter_field_eq_self (xs : List ConsistencyIssue) (f : String) (lvl : IssueLevel)
    (h : ∀ i ∈ xs, i.field = f ∧ i.level = lvl) :
    (xs.filter fun i => i.field == f && i.level == lvl) = xs := by
  apply List.filter_eq_self.mpr
  intro i hi
  simp [(h i hi).1, (h i hi).2]

theorem countIssuesAt_webrtc (data : FormData) :
    countIssuesAt (validateConsistency data) "webrtcMode" IssueLevel.warning =
      (webrtcIssues data).length := by
  unfold countIssuesAt validateConsistency
  simp only [List.filter_append, List.length_append]
  rw [filter_field_eq_nil _ _ _
      (fun i hi => by rw [(platformIssues_field data i hi).1]; decide),
    filter_field_eq_nil _ _ _
      (fun i hi => by rw [(uaIssues_field data i hi).1]; decide),
    filter_field_eq_nil _ _ _
      (fun i hi => by rw [(webglIssues_field data i hi).1]; decide),
    filter_field_eq_nil _ _ _
      (fun i hi => by rw [(dprIssues_field data i hi).1]; decide),
    filter_field_eq_self _ _ _
      (fun i hi => ⟨(webrtcIssues_field data i hi).1, (webrtcIssues_field data i hi).2.1⟩)]
  simp

theorem countIssuesAt_dpr (data : FormData) :
    countIssuesAt (validateConsistency data) "devicePixelRatio" IssueLevel.warning =
      (dprIssues data).length := by
  unfold countIssuesAt validateConsistency
  simp only [List.filter_append, List.length_append]
  rw [filter_field_eq_nil _ _ _
      (fun i hi => by rw [(platformIssues_field data i hi).1]; decide),
    filter_field_eq_nil _ _ _
      (fun i hi => by rw [(uaIssues_field data i hi).1]; decide),
    filter_field_eq_nil _ _ _
      (fun i hi => by rw [(webglIssues_field data i hi).1]; decide),
    filter_field_eq_self _ _ _
      (fun i hi => ⟨(dprIssues_field data i hi).1, (dprIssues_field data i hi).2.1⟩),
    filter_field_eq_nil _ _ _
      (fun i hi => by rw [(webrtcIssues_field data i hi).1]; decide)]
  simp

theorem webrtcIssues_length_one (data : FormData) (h1 : data.proxyType ≠ "none")
    (h2 : data.proxyAddress ≠ "") (h3 : data.webrtcMode = "default") :
    (webrtcIssues data).length = 1 := by
  unfold webrtcIssues
  rw [if_pos]
  · rfl
  · simp [h1, h2, h3]

theorem webrtcIssues_nil_of_mode (data : FormData) (h : data.webrtcMode ≠ "default") :
    webrtcIssues data = [] := by
  unfold webrtcIssues
  rw [if_neg]
  simp [h]

theorem dprIssues_length_one (data : FormData) (h1 : data.os = "macos")
    (h2 : data.devicePixelRatio ≠ 1) (h3 : data.devicePixelRatio ≠ 2) :
    (dprIssues data).length = 1 := by
  unfold dprIssues
  rw [if_pos]
  · rfl
  · simp [h1, h2, h3]

theorem dprIssues_nil_of_dpr (data : FormData)
    (h : data.devicePixelRatio = 1 ∨ data.devicePixelRatio = 2) :
    dprIssues data = [] := by
  unfold dprIssues
  rw [if_neg]
  rcases h with h | h <;> simp [h]

theorem osPatterns_eq_none (os : String) (h1 : os ≠ "macos") (h2 : os ≠ "windows")
    (h3 : os ≠ "linux") : osPatterns os = none := by
  simp [osPatterns, h1, h2, h3]

theorem uaPatterns_eq_none (os : String) (h1 : os ≠ "macos") (h2 : os ≠ "windows")
    (h3 : os ≠ "linux") : uaPatterns os = none := by
  simp [uaPatterns, h1, h2, h3]

theorem mem_ne_empty {l : List String} {s : String} (h : s ∈ l) (he : "" ∉ l) : s ≠ "" := by
  intro h0
  exact he (h0 ▸ h)

theorem enumIf_mem_eq (allowed : List String) (dflt s : String) (h : s ∈ allowed)
    (he : "" ∉ allowed) :
    (if allowed.contains (jsOr (some s) "") then jsOr (some s) "" else dflt) = s := by
  rw [jsOr_some_of_ne _ _ (mem_ne_empty h he), if_pos (contains_of_mem h)]

theorem enumIf_not_mem (allowed : List String) (dflt s : String) (h : s ∉ allowed)
    (he : "" ∉ allowed) :
    (if allowed.contains (jsOr (some s) "") then jsOr (some s) "" else dflt) = dflt := by
  by_cases hs : s = ""
  · subst hs
    rw [jsOr_some_empty, if_neg]
    intro hc
    exact he (mem_of_contains hc)
  · rw [jsOr_some_of_ne _ _ hs, if_neg]
    intro hc
    exact h (mem_of_contains hc)

theorem enumIf_none (allowed : List String) (dflt : String) (he : "" ∉ allowed) :
    (if allowed.contains (jsOr none "") then jsOr none "" else dflt) = dflt := by
  rw [if_neg]
  intro hc
  exact he (mem_of_contains hc)

theorem cdIf_mem_eq (x : ℚ) (h : x ∈ ([8, 16, 24, 30, 32] : List ℚ)) :
    (if ([8, 16, 24, 30, 32] : List ℚ).contains (numOr (some x) 24)
      then numOr (some x) 24 else 24) = x := by
  rw [numOr_some_of_ne _ _ (color_depth_ne_zero h), if_pos (contains_of_mem h)]

theorem cdIf_not_mem (x : ℚ) (h : x ∉ ([8, 16, 24, 30, 32] : List ℚ)) :
    (if ([8, 16, 24, 30, 32] : List ℚ).contains (numOr (some x) 24)
      then numOr (some x) 24 else 24) = 24 := by
  by_cases hx : x = 0
  · subst hx
    rw [show numOr (some (0 : ℚ)) 24 = 24 by simp [numOr]]
    split <;> rfl
  · rw [numOr_some_of_ne _ _ hx, if_neg]
    intro hc
    exact h (mem_of_contains hc)

theorem cdIf_absent :
    (if ([8, 16, 24, 30, 32] : List ℚ).contains (numOr none 24)
      then numOr none 24 else 24) = 24 := by
  split <;> rfl

theorem jsOr_empty_of (o : Option String) (h : jsOr o "" = "") (d : String) :
    jsOr o d = d := by
  cases o with
  | none => rfl
  | some s =>
    have hs : s = "" := by
      by_cases hs0 : s = ""
      · exact hs0
      · rw [jsOr_some_of_ne _ _ hs0] at h
        exact absurd h hs0
    simp [jsOr, hs]

theorem saveProfile_eq (existing : List ProfileConfig) (input : ProfileDraft)
    (now freshId : String)
    (hnotfull : ¬(VALIDATION.MAX_PROFILES ≤ existing.length ∧ jsOr input.id "" = "")) :
    saveProfile existing input now freshId =
      (if isInvalidProfileId (sanitizeProfile input now freshId).id
       then Except.error SaveError.invalidIdentifier
       else Except.ok (sanitizeProfile input now freshId)) := by
  unfold saveProfile
  rw [if_neg hnotfull]
  simp only [getProfilePath]
  by_cases hinv : isInvalidProfileId (sanitizeProfile input now freshId).id = true
  · simp [hinv]
  · simp [hinv]

/-! ### The claims -/

/-- C1, counterexample: contrary to the claim, `sanitizeProfile` does not
fail on a draft whose id contains `..`; it returns a record that still
carries `..` as its id. -/
theorem c1_counterexample :
    (sanitizeProfile dotDotIdDraft "2024-01-01T00:00:00.000Z" "uuid-1").id = ".." ∧
      strIncludes (sanitizeProfile dotDotIdDraft "2024-01-01T00:00:00.000Z" "uuid-1").id
        ".." = true := by
  constructor <;> decide

/-- C1, amended: `sanitizeProfile` never throws; the `InvalidIdentifier`
failure is raised by `getProfilePath` when `saveProfile` resolves the
sanitized record's file path.  For every draft supplying a non-empty id,
saving fails with `InvalidIdentifier` exactly when that id contains `..`,
`/` or `\`. -/
theorem c1_save_rejects_traversal_ids (existing : List ProfileConfig)
    (input : ProfileDraft) (now freshId : String) (i : String)
    (hid : input.id = some i) (hne : i ≠ "") :
    saveProfile existing input now freshId = Except.error SaveError.invalidIdentifier ↔
      (strIncludes i ".." || strIncludes i "/" || strIncludes i "\\") = true := by
  have hempty : jsOr input.id "" ≠ "" := by
    rw [hid, jsOr_some_of_ne _ _ hne]
    exact hne
  rw [saveProfile_eq existing input now freshId (fun hc => hempty hc.2)]
  have hpid : (sanitizeProfile input now freshId).id = i := by
    show jsOr input.id freshId = i
    rw [hid]
    exact jsOr_some_of_ne _ _ hne
  rw [hpid]
  unfold isInvalidProfileId
  rw [show (i == "") = false by simp [hne]]
  simp only [Bool.false_or]
  by_cases hb : (strIncludes i ".." || strIncludes i "/" || strIncludes i "\\") = true
  · simp [hb]
  · simp [hb]

/-- C1, witness: saving a draft whose id is `a/b` is rejected with
`InvalidIdentifier`. -/
theorem c1_witness :
    saveProfile [] slashIdDraft "2024-01-01T00:00:00.000Z" "uuid-1" =
      Except.error SaveError.invalidIdentifier :=
  (c1_save_rejects_traversal_ids [] slashIdDraft "2024-01-01T00:00:00.000Z" "uuid-1"
    "a/b" rfl (by decide)).mpr (by decide)

/-- C2: every bounded numeric field of a sanitized record lies inside its
declared inclusive range (`hardware_concurrency` in `[1,128]`,
`max_touch_points` in `[0,20]`, the four screen dimensions in `[100,10000]`,
`device_pixel_ratio` in `[1/2,4]`), and every enum field is a member of its
declared set. -/
theorem c2_bounds_enum_closure (input : ProfileDraft) (now freshId : String) :
    (1 ≤ (sanitizeProfile input now freshId).navigator.hardware_concurrency ∧
      (sanitizeProfile input now freshId).navigator.hardware_concurrency ≤ 128) ∧
    (0 ≤ (sanitizeProfile input now freshId).navigator.max_touch_points ∧
      (sanitizeProfile input now freshId).navigator.max_touch_points ≤ 20) ∧
    (100 ≤ (sanitizeProfile input now freshId).screen.width ∧
      (sanitizeProfile input now freshId).screen.width ≤ 10000) ∧
    (100 ≤ (sanitizeProfile input now freshId).screen.height ∧
      (sanitizeProfile input now freshId).screen.height ≤ 10000) ∧
    (100 ≤ (sanitizeProfile input now freshId).screen.avail_width ∧
      (sanitizeProfile input now freshId).screen.avail_width ≤ 10000) ∧
    (100 ≤ (sanitizeProfile input now freshId).screen.avail_height ∧
      (sanitizeProfile input now freshId).screen.avail_height ≤ 10000) ∧
    (1 / 2 ≤ (sanitizeProfile input now freshId).screen.device_pixel_ratio ∧
      (sanitizeProfile input now freshId).screen.device_pixel_ratio ≤ 4) ∧
    (sanitizeProfile input now freshId).target_os ∈
      (["macos", "windows", "linux"] : List String) ∧
    (sanitizeProfile input now freshId).proxy.type ∈
      (["none", "http", "socks5"] : List String) ∧
    (sanitizeProfile input now freshId).webrtc.mode ∈
      (["disabled", "proxy_only", "default"] : List String) ∧
    (sanitizeProfile input now freshId).screen.color_depth ∈
      ([8, 16, 24, 30, 32] : List ℚ) := by
  refine ⟨?_, ?_, ?_, ?_, ?_, ?_, ?_, ?_, ?_, ?_, ?_⟩
  · exact clamp_bounds 1 128 _ (by norm_num)
  · exact clamp_bounds 0 20 _ (by norm_num)
  · exact validateScreenDim_bounds _
  · exact validateScreenDim_bounds _
  · exact validateScreenDim_bounds _
  · exact validateScreenDim_bounds _
  · exact validateDPR_bounds _
  · exact sanitizeTargetOS_mem input.target_os
  · exact sanitizeProxy_type_mem input.proxy
  · exact sanitizeWebRTC_mode_mem input.webrtc
  · exact sanitizeScreen_color_depth_mem input.screen

/-- C3, counterexample: a draft with `hardware_concurrency = 0` sanitizes to
8, not to 1 as the claim states (`0` is falsy, so the `|| 8` fallback fires
before the clamp). -/
theorem c3_counterexample :
    (sanitizeProfile hc0Draft "2024-01-01T00:00:00.000Z"
        "uuid-1").navigator.hardware_concurrency = 8 ∧
      ¬(sanitizeProfile hc0Draft "2024-01-01T00:00:00.000Z"
        "uuid-1").navigator.hardware_concurrency = 1 := by
  constructor <;> decide

/-- C3, amended: a draft with `hardware_concurrency = 9999` sanitizes to a
record with `hardware_concurrency = 128`, and a draft with
`hardware_concurrency = 0` sanitizes to a record with
`hardware_concurrency = 8` (zero is treated as missing input and replaced by
the default 8 before clamping). -/
theorem c3_hardware_concurrency_clamp (now freshId : String) :
    (sanitizeProfile hc9999Draft now freshId).navigator.hardware_concurrency = 128 ∧
    (sanitizeProfile hc0Draft now freshId).navigator.hardware_concurrency = 8 := by
  constructor
  · show (sanitizeNavigator hc9999Draft.navigator).hardware_concurrency = 128
    decide
  · show (sanitizeNavigator hc0Draft.navigator).hardware_concurrency = 8
    decide

/-- C4: each enum field keeps an input value that is an exact member of its
allowed set and silently resolves every other input (absent included) to its
fixed default: `target_os` to "windows", `proxy.type` to "none",
`webrtc.mode` to "default" and `color_depth` to 24. -/
theorem c4_enum_defaults (input : ProfileDraft) (now freshId : String) :
    ((input.target_os = none → (sanitizeProfile input now freshId).target_os = "windows") ∧
     (∀ s, input.target_os = some s → s ∈ (["macos", "windows", "linux"] : List String) →
       (sanitizeProfile input now freshId).target_os = s) ∧
     (∀ s, input.target_os = some s → s ∉ (["macos", "windows", "linux"] : List String) →
       (sanitizeProfile input now freshId).target_os = "windows")) ∧
    ((input.proxy.bind DraftProxy.type = none →
       (sanitizeProfile input now freshId).proxy.type = "none") ∧
     (∀ s, input.proxy.bind DraftProxy.type = some s →
       s ∈ (["none", "http", "socks5"] : List String) →
       (sanitizeProfile input now freshId).proxy.type = s) ∧
     (∀ s, input.proxy.bind DraftProxy.type = some s →
       s ∉ (["none", "http", "socks5"] : List String) →
       (sanitizeProfile input now freshId).proxy.type = "none")) ∧
    ((input.webrtc.bind DraftWebRTC.mode = none →
       (sanitizeProfile input now freshId).webrtc.mode = "default") ∧
     (∀ s, input.webrtc.bind DraftWebRTC.mode = some s →
       s ∈ (["disabled", "proxy_only", "default"] : List String) →
       (sanitizeProfile input now freshId).webrtc.mode = s) ∧
     (∀ s, input.webrtc.bind DraftWebRTC.mode = some s →
       s ∉ (["disabled", "proxy_only", "default"] : List String) →
       (sanitizeProfile input now freshId).webrtc.mode = "default")) ∧
    ((input.screen.bind DraftScreen.color_depth = none →
       (sanitizeProfile input now freshId).screen.color_depth = 24) ∧
     (∀ x, input.screen.bind DraftScreen.color_depth = some x →
       x ∈ ([8, 16, 24, 30, 32] : List ℚ) →
       (sanitizeProfile input now freshId).screen.color_depth = x) ∧
     (∀ x, input.screen.bind DraftScreen.color_depth = some x →
       x ∉ ([8, 16, 24, 30, 32] : List ℚ) →
       (sanitizeProfile input now freshId).screen.color_depth = 24)) := by
  refine ⟨⟨?_, ?_, ?_⟩, ⟨?_, ?_, ?_⟩, ⟨?_, ?_, ?_⟩, ⟨?_, ?_, ?_⟩⟩
  · intro h0
    show (if (["macos", "windows", "linux"] : List String).contains (jsOr input.target_os "")
      then jsOr input.target_os "" else "windows") = "windows"
    rw [h0]
    exact enumIf_none _ _ (by decide)
  · intro s hs hmem
    show (if (["macos", "windows", "linux"] : List String).contains (jsOr input.target_os "")
      then jsOr input.target_os "" else "windows") = s
    rw [hs]
    exact enumIf_mem_eq _ _ s hmem (by decide)
  · intro s hs hmem
    show (if (["macos", "windows", "linux"] : List String).contains (jsOr input.target_os "")
      then jsOr input.target_os "" else "windows") = "windows"
    rw [hs]
    exact enumIf_not_mem _ _ s hmem (by decide)
  · intro h0
    show (if (["none", "http", "socks5"] : List String).contains
        (jsOr (input.proxy.bind DraftProxy.type) "")
      then jsOr (input.proxy.bind DraftProxy.type) "" else "none") = "none"
    rw [h0]
    exact enumIf_none _ _ (by decide)
  · intro s hs hmem
    show (if (["none", "http", "socks5"] : List String).contains
        (jsOr (input.proxy.bind DraftProxy.type) "")
      then jsOr (input.proxy.bind DraftProxy.type) "" else "none") = s
    rw [hs]
    exact enumIf_mem_eq _ _ s hmem (by decide)
  · intro s hs hmem
    show (if (["none", "http", "socks5"] : List String).contains
        (jsOr (input.proxy.bind DraftProxy.type) "")
      then jsOr (input.proxy.bind DraftProxy.type) "" else "none") = "none"
    rw [hs]
    exact enumIf_not_mem _ _ s hmem (by decide)
  · intro h0
    show (if (["disabled", "proxy_only", "default"] : List String).contains
        (jsOr (input.webrtc.bind DraftWebRTC.mode) "")
      then jsOr (input.webrtc.bind DraftWebRTC.mode) "" else "default") = "default"
    rw [h0]
    exact enumIf_none _ _ (by decide)
  · intro s hs hmem
    show (if (["disabled", "proxy_only", "default"] : List String).contains
        (jsOr (input.webrtc.bind DraftWebRTC.mode) "")
      then jsOr (input.webrtc.bind DraftWebRTC.mode) "" else "default") = s
    rw [hs]
    exact enumIf_mem_eq _ _ s hmem (by decide)
  · intro s hs hmem
    show (if (["disabled", "proxy_only", "default"] : List String).contains
        (jsOr (input.webrtc.bind DraftWebRTC.mode) "")
      then jsOr (input.webrtc.bind DraftWebRTC.mode) "" else "default") = "default"
    rw [hs]
    exact enumIf_not_mem _ _ s hmem (by decide)
  · intro h0
    show (if ([8, 16, 24, 30, 32] : List ℚ).contains
        (numOr (input.screen.bind DraftScreen.color_depth) 24)
      then numOr (input.screen.bind DraftScreen.color_depth) 24 else 24) = 24
    rw [h0]
    exact cdIf_absent
  · intro x hx hmem
    show (if ([8, 16, 24, 30, 32] : List ℚ).contains
        (numOr (input.screen.bind DraftScreen.color_depth) 24)
      then numOr (input.screen.bind DraftScreen.color_depth) 24 else 24) = x
    rw [hx]
    exact cdIf_mem_eq x hmem
  · intro x hx hmem
    show (if ([8, 16, 24, 30, 32] : List ℚ).contains
        (numOr (input.screen.bind DraftScreen.color_depth) 24)
      then numOr (input.screen.bind DraftScreen.color_depth) 24 else 24) = 24
    rw [hx]
    exact cdIf_not_mem x hmem

/-- C4, witness: on a draft with a valid `target_os`, an out-of-set
`proxy.type`, an absent `webrtc.mode` and an out-of-set `color_depth`, the
sanitizer keeps "macos" and defaults the other three fields. -/
theorem c4_witness :
    (sanitizeProfile enumDraft "2024-01-01T00:00:00.000Z" "uuid-1").target_os = "macos" ∧
    (sanitizeProfile enumDraft "2024-01-01T00:00:00.000Z" "uuid-1").proxy.type = "none" ∧
    (sanitizeProfile enumDraft "2024-01-01T00:00:00.000Z" "uuid-1").webrtc.mode = "default" ∧
    (sanitizeProfile enumDraft "2024-01-01T00:00:00.000Z" "uuid-1").screen.color_depth = 24 := by
  have h := c4_enum_defaults enumDraft "2024-01-01T00:00:00.000Z" "uuid-1"
  exact ⟨h.1.2.1 "macos" rfl (by decide), h.2.1.2.2 "bogus" rfl (by decide),
    h.2.2.1.1 rfl, h.2.2.2.2.2 10 rfl (by decide)⟩

/-- C5: when `platform`, `userAgent` and `webglRenderer` are all empty, the
checker raises no issue at any of those three fields. -/
theorem c5_blank_fields_not_flagged (data : FormData) (h1 : data.platform = "")
    (h2 : data.userAgent = "") (h3 : data.webglRenderer = "") :
    ∀ i ∈ validateConsistency data,
      i.field ≠ "platform" ∧ i.field ≠ "userAgent" ∧ i.field ≠ "webglRenderer" := by
  intro i hi
  unfold validateConsistency at hi
  simp only [List.mem_append] at hi
  rcases hi with (((hp | hu) | hw) | hd) | hr
  · exact absurd (platformIssues_field data i hp).2.2.1 (not_not_intro h1)
  · exact absurd (uaIssues_field data i hu).2.2.1 (not_not_intro h2)
  · exact absurd (webglIssues_field data i hw).2.2 (not_not_intro h3)
  · have hf := (dprIssues_field data i hd).1
    rw [hf]
    exact ⟨by decide, by decide, by decide⟩
  · have hf := (webrtcIssues_field data i hr).1
    rw [hf]
    exact ⟨by decide, by decide, by decide⟩

/-- C5, witness: a blank macOS form raises only the DPR warning, whose field
is none of `platform`, `userAgent`, `webglRenderer`. -/
theorem c5_witness :
    blankMacDprIssue.field ≠ "platform" ∧ blankMacDprIssue.field ≠ "userAgent" ∧
      blankMacDprIssue.field ≠ "webglRenderer" :=
  c5_blank_fields_not_flagged blankMacForm rfl rfl rfl blankMacDprIssue (by decide)

/-- C6: with a proxy configured (`proxy.type` ≠ "none", non-empty server)
and `webrtc.mode` = "default", the checker raises exactly one warning at
field `webrtcMode`; switching the mode to "disabled" removes it. -/
theorem c6_webrtc_proxy_leak_warning (data : FormData) (h1 : data.proxyType ≠ "none")
    (h2 : data.proxyAddress ≠ "") (h3 : data.webrtcMode = "default") :
    countIssuesAt (validateConsistency data) "webrtcMode" IssueLevel.warning = 1 ∧
    countIssuesAt (validateConsistency { data with webrtcMode := "disabled" })
      "webrtcMode" IssueLevel.warning = 0 := by
  constructor
  · rw [countIssuesAt_webrtc]
    exact webrtcIssues_length_one data h1 h2 h3
  · rw [countIssuesAt_webrtc,
      webrtcIssues_nil_of_mode _ (show ("disabled" : String) ≠ "default" by decide)]
    rfl

/-- C6, witness: the socks5/1.2.3.4:1080/default form. -/
theorem c6_witness :
    countIssuesAt (validateConsistency proxiedDefaultForm) "webrtcMode"
      IssueLevel.warning = 1 ∧
    countIssuesAt (validateConsistency { proxiedDefaultForm with webrtcMode := "disabled" })
      "webrtcMode" IssueLevel.warning = 0 :=
  c6_webrtc_proxy_leak_warning proxiedDefaultForm (by decide) (by decide) rfl

/-- C7: on a macOS target the checker raises exactly one warning at field
`devicePixelRatio` when the DPR is neither 1.0 nor 2.0, and none when it is
1.0 or 2.0. -/
theorem c7_mac_dpr_warning (data : FormData) (h : data.os = "macos") :
    (data.devicePixelRatio ≠ 1 → data.devicePixelRatio ≠ 2 →
      countIssuesAt (validateConsistency data) "devicePixelRatio" IssueLevel.warning = 1) ∧
    (data.devicePixelRatio = 1 ∨ data.devicePixelRatio = 2 →
      countIssuesAt (validateConsistency data) "devicePixelRatio" IssueLevel.warning = 0) := by
  constructor
  · intro h2 h3
    rw [countIssuesAt_dpr]
    exact dprIssues_length_one data h h2 h3
  · intro hd
    rw [countIssuesAt_dpr, dprIssues_nil_of_dpr data hd]
    rfl

/-- C7, witness: macOS with DPR 1.5 raises the warning, macOS with DPR 2.0
does not. -/
theorem c7_witness :
    countIssuesAt (validateConsistency macDpr15Form) "devicePixelRatio"
      IssueLevel.warning = 1 ∧
    countIssuesAt (validateConsistency macDpr2Form) "devicePixelRatio"
      IssueLevel.warning = 0 :=
  ⟨(c7_mac_dpr_warning macDpr15Form rfl).1 (by norm_num [macDpr15Form]) (by norm_num [macDpr15Form]),
   (c7_mac_dpr_warning macDpr2Form rfl).2 (Or.inr rfl)⟩

/-- C10: an unrecognized `os` value produces no OS/Platform and no
OS/User-Agent issue, whatever `platform` and `userAgent` contain; the two
rules are silently disabled rather than falling back to a default OS. -/
theorem c10_unknown_os_disables_os_rules (data : FormData) (h1 : data.os ≠ "macos")
    (h2 : data.os ≠ "windows") (h3 : data.os ≠ "linux") :
    ∀ i ∈ validateConsistency data, i.field ≠ "platform" ∧ i.field ≠ "userAgent" := by
  intro i hi
  unfold validateConsistency at hi
  simp only [List.mem_append] at hi
  rcases hi with (((hp | hu) | hw) | hd) | hr
  · exact absurd (platformIssues_field data i hp).2.2.2
      (not_not_intro (osPatterns_eq_none data.os h1 h2 h3))
  · exact absurd (uaIssues_field data i hu).2.2.2
      (not_not_intro (uaPatterns_eq_none data.os h1 h2 h3))
  · have hf := (webglIssues_field data i hw).1
    rw [hf]
    exact ⟨by decide, by decide⟩
  · have hf := (dprIssues_field data i hd).1
    rw [hf]
    exact ⟨by decide, by decide⟩
  · have hf := (webrtcIssues_field data i hr).1
    rw [hf]
    exact ⟨by decide, by decide⟩

/-- C10, witness: an os of "freebsd" with a Windows platform and UA raises
only the WebRTC warning; its field is neither `platform` nor `userAgent`. -/
theorem c10_witness :
    webrtcLeakIssue.field ≠ "platform" ∧ webrtcLeakIssue.field ≠ "userAgent" :=
  c10_unknown_os_disables_os_rules freebsdForm (by decide) (by decide) (by decide)
    webrtcLeakIssue (by decide)

/-- C8, counterexample: re-sanitizing is not a pure `updated_at` refresh in
general.  A draft whose name is whitespace only sanitizes to an empty name,
and feeding that record back replaces the empty name by the placeholder
`Perfil sem nome`. -/
theorem c8_counterexample :
    (sanitizeProfile (recordToDraft (sanitizeProfile blankNameDraft
        "2024-01-01T00:00:00.000Z" "uuid-1")) "2024-02-01T00:00:00.000Z" "uuid-2").name ≠
      (sanitizeProfile blankNameDraft "2024-01-01T00:00:00.000Z" "uuid-1").name ∧
    (sanitizeProfile blankNameDraft "2024-01-01T00:00:00.000Z" "uuid-1").name = "" ∧
    (sanitizeProfile (recordToDraft (sanitizeProfile blankNameDraft
        "2024-01-01T00:00:00.000Z" "uuid-1")) "2024-02-01T00:00:00.000Z" "uuid-2").name =
      "Perfil sem nome" := by
  refine ⟨?_, ?_, ?_⟩ <;> decide

/-- C8, amended: re-sanitizing an already-sanitized record with the same id
preserves `id`, `created_at`, `version`, `name`, `notes`, `target_os`,
`navigator`, `screen`, `locale`, `webgl`, `proxy`, `webrtc` and `storage`,
and refreshes `updated_at`, provided the sanitized record's `id`,
`created_at`, `name` and locale fields are non-empty and its optional string
fields (proxy credentials, WebRTC spoof addresses, storage directory) are
not the empty string; otherwise those fields are re-defaulted as in the
counterexample. -/
theorem c8_resanitize_stable (input : ProfileDraft) (now1 u1 now2 u2 : String)
    (hid : (sanitizeProfile input now1 u1).id ≠ "")
    (hcr : (sanitizeProfile input now1 u1).created_at ≠ "")
    (hname : (sanitizeProfile input now1 u1).name ≠ "")
    (hlang : (sanitizeProfile input now1 u1).locale.language ≠ "")
    (hreg : (sanitizeProfile input now1 u1).locale.region ≠ "")
    (htz : (sanitizeProfile input now1 u1).locale.timezone ≠ "")
    (huser : (sanitizeProfile input now1 u1).proxy.username ≠ some "")
    (hpass : (sanitizeProfile input now1 u1).proxy.password ≠ some "")
    (hip4 : (sanitizeProfile input now1 u1).webrtc.spoof_ipv4 ≠ some "")
    (hip6 : (sanitizeProfile input now1 u1).webrtc.spoof_ipv6 ≠ some "")
    (hdir : (sanitizeProfile input now1 u1).storage.user_data_dir ≠ some "") :
    (sanitizeProfile (recordToDraft (sanitizeProfile input now1 u1)) now2 u2).id =
      (sanitizeProfile input now1 u1).id ∧
    (sanitizeProfile (recordToDraft (sanitizeProfile input now1 u1)) now2 u2).created_at =
      (sanitizeProfile input now1 u1).created_at ∧
    (sanitizeProfile (recordToDraft (sanitizeProfile input now1 u1)) now2 u2).version =
      (sanitizeProfile input now1 u1).version ∧
    (sanitizeProfile (recordToDraft (sanitizeProfile input now1 u1)) now2 u2).name =
      (sanitizeProfile input now1 u1).name ∧
    (sanitizeProfile (recordToDraft (sanitizeProfile input now1 u1)) now2 u2).notes =
      (sanitizeProfile input now1 u1).notes ∧
    (sanitizeProfile (recordToDraft (sanitizeProfile input now1 u1)) now2 u2).target_os =
      (sanitizeProfile input now1 u1).target_os ∧
    (sanitizeProfile (recordToDraft (sanitizeProfile input now1 u1)) now2 u2).navigator =
      (sanitizeProfile input now1 u1).navigator ∧
    (sanitizeProfile (recordToDraft (sanitizeProfile input now1 u1)) now2 u2).screen =
      (sanitizeProfile input now1 u1).screen ∧
    (sanitizeProfile (recordToDraft (sanitizeProfile input now1 u1)) now2 u2).locale =
      (sanitizeProfile input now1 u1).locale ∧
    (sanitizeProfile (recordToDraft (sanitizeProfile input now1 u1)) now2 u2).webgl =
      (sanitizeProfile input now1 u1).webgl ∧
    (sanitizeProfile (recordToDraft (sanitizeProfile input now1 u1)) now2 u2).proxy =
      (sanitizeProfile input now1 u1).proxy ∧
    (sanitizeProfile (recordToDraft (sanitizeProfile input now1 u1)) now2 u2).webrtc =
      (sanitizeProfile input now1 u1).webrtc ∧
    (sanitizeProfile (recordToDraft (sanitizeProfile input now1 u1)) now2 u2).storage =
      (sanitizeProfile input now1 u1).storage ∧
    (sanitizeProfile (recordToDraft (sanitizeProfile input now1 u1)) now2 u2).updated_at =
      now2 := by
  refine ⟨?_, ?_, ?_, ?_, ?_, ?_, ?_, ?_, ?_, ?_, ?_, ?_, ?_, ?_⟩
  · show jsOr (some (sanitizeProfile input now1 u1).id) u2 =
      (sanitizeProfile input now1 u1).id
    exact jsOr_some_of_ne _ _ hid
  · show jsOr (some (sanitizeProfile input now1 u1).created_at) now2 =
      (sanitizeProfile input now1 u1).created_at
    exact jsOr_some_of_ne _ _ hcr
  · rfl
  · show sanitizeString (jsOr (some (sanitizeProfile input now1 u1).name) "Perfil sem nome")
      VALIDATION.MAX_PROFILE_NAME_LENGTH = (sanitizeProfile input now1 u1).name
    rw [jsOr_some_of_ne _ _ hname]
    exact sanitizeString_idem _ _
  · exact resan_default_empty _ _
  · exact sanitizeTargetOS_resan input.target_os
  · exact sanitizeNavigator_resan input.navigator
  · exact sanitizeScreen_resan input.screen
  · exact sanitizeLocale_resan input.locale hlang hreg htz
  · exact sanitizeWebGL_resan input.webgl
  · exact sanitizeProxy_resan input.proxy huser hpass
  · exact sanitizeWebRTC_resan input.webrtc hip4 hip6
  · exact sanitizeStorage_resan input.storage hdir
  · rfl

/-- C8, witness: re-sanitizing the sanitized well-behaved draft keeps id,
created_at, version and navigator. -/
theorem c8_witness :
    (sanitizeProfile (recordToDraft (sanitizeProfile stableDraft
        "2024-01-01T00:00:00.000Z" "uuid-1")) "2024-02-01T00:00:00.000Z" "uuid-2").id =
      (sanitizeProfile stableDraft "2024-01-01T00:00:00.000Z" "uuid-1").id ∧
    (sanitizeProfile (recordToDraft (sanitizeProfile stableDraft
        "2024-01-01T00:00:00.000Z" "uuid-1")) "2024-02-01T00:00:00.000Z" "uuid-2").created_at =
      (sanitizeProfile stableDraft "2024-01-01T00:00:00.000Z" "uuid-1").created_at ∧
    (sanitizeProfile (recordToDraft (sanitizeProfile stableDraft
        "2024-01-01T00:00:00.000Z" "uuid-1")) "2024-02-01T00:00:00.000Z" "uuid-2").version =
      (sanitizeProfile stableDraft "2024-01-01T00:00:00.000Z" "uuid-1").version ∧
    (sanitizeProfile (recordToDraft (sanitizeProfile stableDraft
        "2024-01-01T00:00:00.000Z" "uuid-1")) "2024-02-01T00:00:00.000Z" "uuid-2").navigator =
      (sanitizeProfile stableDraft "2024-01-01T00:00:00.000Z" "uuid-1").navigator := by
  have h := c8_resanitize_stable stableDraft "2024-01-01T00:00:00.000Z" "uuid-1"
    "2024-02-01T00:00:00.000Z" "uuid-2" (by decide) (by decide) (by decide) (by decide)
    (by decide) (by decide) (by decide) (by decide) (by decide) (by decide) (by decide)
  exact ⟨h.1, h.2.1, h.2.2.1, h.2.2.2.2.2.2.1⟩

/-- C9: `saveProfile` rejects a creation (a draft without id) with the
record-limit error exactly when the store already holds `MAX_PROFILES`
records, and saves an update (a draft with a valid non-empty id) whatever
the store size. -/
theorem c9_record_limit (existing : List ProfileConfig) (input : ProfileDraft)
    (now freshId : String) :
    (jsOr input.id "" = "" → isInvalidProfileId freshId = false →
      ((VALIDATION.MAX_PROFILES ≤ existing.length →
        saveProfile existing input now freshId =
          Except.error SaveError.recordLimitExceeded) ∧
       (existing.length < VALIDATION.MAX_PROFILES →
        saveProfile existing input now freshId =
          Except.ok (sanitizeProfile input now freshId)))) ∧
    (∀ i, input.id = some i → i ≠ "" → isInvalidProfileId i = false →
      saveProfile existing input now freshId =
        Except.ok (sanitizeProfile input now freshId)) := by
  constructor
  · intro h0 hfresh
    constructor
    · intro hfull
      unfold saveProfile
      rw [if_pos ⟨hfull, h0⟩]
    · intro hlt
      rw [saveProfile_eq existing input now freshId
        (fun hc => absurd hc.1 (not_le.mpr hlt))]
      have hpid : (sanitizeProfile input now freshId).id = freshId := by
        show jsOr input.id freshId = freshId
        exact jsOr_empty_of _ h0 _
      rw [hpid, hfresh]
      rfl
  · intro i hid hne hinv
    have hempty : jsOr input.id "" ≠ "" := by
      rw [hid, jsOr_some_of_ne _ _ hne]
      exact hne
    rw [saveProfile_eq existing input now freshId (fun hc => hempty hc.2)]
    have hpid : (sanitizeProfile input now freshId).id = i := by
      show jsOr input.id freshId = i
      rw [hid]
      exact jsOr_some_of_ne _ _ hne
    rw [hpid, hinv]
    rfl

/-- C9, witness: with 100 stored records an id-less draft is rejected while
an update carrying the id `p1` is saved. -/
theorem c9_witness :
    saveProfile fullStore emptyDraft "2024-01-01T00:00:00.000Z" "uuid-1" =
      Except.error SaveError.recordLimitExceeded ∧
    saveProfile fullStore stableDraft "2024-01-01T00:00:00.000Z" "uuid-1" =
      Except.ok (sanitizeProfile stableDraft "2024-01-01T00:00:00.000Z" "uuid-1") := by
  constructor
  · exact ((c9_record_limit fullStore emptyDraft "2024-01-01T00:00:00.000Z" "uuid-1").1
      rfl (by decide)).1 (by simp [fullStore, VALIDATION.MAX_PROFILES])
  · exact (c9_record_limit fullStore stableDraft "2024-01-01T00:00:00.000Z" "uuid-1").2
      "p1" rfl (by decide) (by decide)
